import Mathlib

/-!
Verification of the characteristic codec / request-protocol layer of
node-omron-envsensor (lib/envsensor-device.js), as a shallow embedding.

The asynchronous transport is modelled by outcome scripts: the i-th
transport call of one logical operation is described by the i-th entry of
a script function.  `stall` means the call did not complete within the
response timeout window (the 5000 ms timer fires first); `err` means the
transport completed with an error; `done` means it completed successfully.
-/

/-- `this._RESPONSE_TIMEOUT_MSEC = 5000` in the source constructor. -/
def RESPONSE_TIMEOUT_MSEC : Nat := 5000

/-- `this._REQUEST_RETRY_MAX = 3` in the source constructor. -/
def REQUEST_RETRY_MAX : Nat := 3

/-- A JSON-like structured value as produced by the codec and consumed by
the merge step of `_setValue` (numbers, strings, nested plain objects). -/
inductive JVal where
  | num (n : Int)
  | str (s : String)
  | obj (fields : List (String × JVal))

/-- Outcome of one `char.read` transport call within the retry loop. -/
inductive ReadOutcome where
  | stall
  | err (e : String)
  | done (buf : List Nat)

/-- Outcome of one `char.write` transport call within the retry loop. -/
inductive WriteOutcome where
  | stall
  | err (e : String)
  | done

/-- The retry loop body of `_read` (envsensor-device.js, `readData`).
`i` is the attempt number (the source's `n` after the `n++`), and `b`
is the remaining attempt budget `_REQUEST_RETRY_MAX - n + 1`; the source
guard `n < this._REQUEST_RETRY_MAX` holds exactly when `b ≥ 2`.
Returns the settled promise outcome and the number of transport calls
issued. -/
def readAttempts (script : Nat → ReadOutcome) (parse : List Nat → Option JVal)
    (b i : Nat) : Except String JVal × Nat :=
  match script i with
  | ReadOutcome.stall =>
    if h : 2 ≤ b then
      let r := readAttempts script parse (b - 1) (i + 1)
      (r.1, r.2 + 1)
    else (Except.error "Timeout.", 1)
  | ReadOutcome.err e => (Except.error e, 1)
  | ReadOutcome.done buf =>
    match parse buf with
    | some v => (Except.ok v, 1)
    | none => (Except.error "Unknown Response Data", 1)
  termination_by b
  decreasing_by omega

/-- The retry loop body of `_write` (envsensor-device.js, `writeData`);
same bookkeeping as `readAttempts`, but success carries no value. -/
def writeAttempts (script : Nat → WriteOutcome) (b i : Nat) :
    Except String Unit × Nat :=
  match script i with
  | WriteOutcome.stall =>
    if h : 2 ≤ b then
      let r := writeAttempts script (b - 1) (i + 1)
      (r.1, r.2 + 1)
    else (Except.error "Timeout.", 1)
  | WriteOutcome.err e => (Except.error e, 1)
  | WriteOutcome.done => (Except.ok (), 1)
  termination_by b
  decreasing_by omega

/-- One whole `_read` retry engine run: `readData(callback)` starting at
attempt 1 with the full retry budget. -/
def readData (script : Nat → ReadOutcome) (parse : List Nat → Option JVal) :
    Except String JVal × Nat :=
  readAttempts script parse REQUEST_RETRY_MAX 1

/-- One whole `_write` retry engine run starting at attempt 1. -/
def writeData (script : Nat → WriteOutcome) : Except String Unit × Nat :=
  writeAttempts script REQUEST_RETRY_MAX 1

/-- JS `k in obj` / `obj[k]` over the object's field list. -/
def lookupField (k : String) : List (String × JVal) → Option JVal
  | [] => none
  | (k', v) :: rest => if k' = k then some v else lookupField k rest

mutual

/-- The recursive `overrideObject(base, obj)` of `_setValue`: requested
fields override the fields of the decoded current value, recursing when
the requested value is itself an object; returns the merged value and the
total number of scalar fields overridden (`override_num`).  When the
requested value is an object but the base field is a primitive, the JS
recursion walks `Object.keys` of a primitive, which yields no keys for a
number, so nothing is overridden. -/
def overrideObject : JVal → JVal → JVal × Nat
  | JVal.obj bs, JVal.obj os =>
    let r := overrideFields bs os
    (JVal.obj r.1, r.2)
  | b, _ => (b, 0)

/-- `Object.keys(base).forEach` walk of `overrideObject` over the base
object's fields, in order. -/
def overrideFields : List (String × JVal) → List (String × JVal) →
    List (String × JVal) × Nat
  | [], _ => ([], 0)
  | (k, bv) :: rest, os =>
    let tail := overrideFields rest os
    match lookupField k os with
    | none => ((k, bv) :: tail.1, tail.2)
    | some v =>
      match v with
      | JVal.obj vs =>
        let r := overrideObject bv (JVal.obj vs)
        ((k, r.1) :: tail.1, tail.2 + r.2)
      | _ => ((k, v) :: tail.1, tail.2 + 1)

end

/-- `_setValue(char_uuid, params)`: reject non-object or empty `params`;
otherwise read the current value, merge, reject when zero fields were
overridden, else issue the transport write with the merged value.
`current` is the outcome of the `_read`, `writeOp` the `_write` on the
merged value; the boolean reports whether a transport write was issued. -/
def setValue (current : Except String JVal) (writeOp : JVal → Except String Unit)
    (params : Option JVal) : Except String Unit × Bool :=
  match params with
  | none => (Except.error "No parameter was specified.", false)
  | some p =>
    match p with
    | JVal.obj [] => (Except.error "No parameter was specified.", false)
    | JVal.obj os =>
      (match current with
       | Except.error e => (Except.error e, false)
       | Except.ok cur =>
         let r := overrideObject cur (JVal.obj os)
         if r.2 = 0 then (Except.error "No parameter was specified.", false)
         else (writeOp r.1, true))
    | _ => (Except.error "No parameter was specified.", false)

/-- JS `toLocaleLowerCase` on one character, on the ASCII range used by
characteristic identifiers. -/
def jsToLowerChar (c : Char) : Char :=
  if 'A' ≤ c ∧ c ≤ 'Z' then Char.ofNat (c.toNat + 32) else c

/-- JS `String.prototype.toLocaleLowerCase` (ASCII range). -/
def jsToLower (s : String) : String :=
  String.mk (s.data.map jsToLowerChar)

/-- JS `String.prototype.toUpperCase` (ASCII range), used to state that
uppercase and lowercase identifiers behave identically. -/
def jsToUpperChar (c : Char) : Char :=
  if 'a' ≤ c ∧ c ≤ 'z' then Char.ofNat (c.toNat - 32) else c

/-- JS uppercase of a whole string (ASCII range). -/
def jsToUpper (s : String) : String :=
  String.mk (s.data.map jsToUpperChar)

/-- The sixteen lowercase digits JS `Number.prototype.toString(16)` uses. -/
def hexDigitChars : List Char := "0123456789abcdef".data

/-- One hex digit character (indices above 15 never occur for base 16). -/
def hexDigit (d : Nat) : Char := hexDigitChars.getD d '0'

/-- Digit accumulation of JS `n.toString(16)` for nonnegative `n`. -/
def natToHexAux (n : Nat) (acc : List Char) : List Char :=
  if h : n < 16 then hexDigit n :: acc
  else natToHexAux (n / 16) (hexDigit (n % 16) :: acc)
  termination_by n
  decreasing_by exact Nat.div_lt_self (by omega) (by omega)

/-- JS `n.toString(16)`: lowercase hexadecimal rendering of a numeric ID. -/
def natToHex (n : Nat) : String := String.mk (natToHexAux n [])

/-- The `char_uuid` argument of `_read` / `_write`: a string, a number, or
anything else (which is rejected). -/
inductive CharId where
  | str (s : String)
  | num (n : Nat)
  | other

/-- The identifier normalization at the top of `_read` / `_write`:
strings are lowercased, numbers rendered as hex, other values rejected. -/
def normalizeCharUuid : CharId → Option String
  | CharId.str s => some (jsToLower s)
  | CharId.num n => some (natToHex n)
  | CharId.other => none

/-- Fixed prefix of `this._BASE_UUID_RE`. -/
def BASE_UUID_PREFIX : List Char := "0c4c".data

/-- Fixed suffix of `this._BASE_UUID_RE`. -/
def BASE_UUID_SUFFIX : List Char := "770046f4aa96d5e974e32a54".data

/-- One character of the `[a-f\d]` class of `this._BASE_UUID_RE`. -/
def isHexLower (c : Char) : Bool :=
  (('a' ≤ c && c ≤ 'f') || ('0' ≤ c && c ≤ '9'))

/-- The match `uuid.match(this._BASE_UUID_RE)`: a 32-character lowercase
string made of the fixed prefix, a 4-hex-digit variable segment, and the
fixed suffix; on a match, the captured segment. -/
def baseUuidMatch (s : String) : Option String :=
  let cs := s.data
  if cs.length = 32 ∧ cs.take 4 = BASE_UUID_PREFIX ∧ cs.drop 8 = BASE_UUID_SUFFIX ∧
      ((cs.drop 4).take 4).all isHexLower = true
  then some (String.mk ((cs.drop 4).take 4))
  else none

/-- The table-key reduction in `_init`: a long-form UUID matching the base
pattern is replaced by its captured 4-digit segment; anything else is kept
as is. -/
def initNormalizeUuid (s : String) : String :=
  match baseUuidMatch s with
  | some seg => seg
  | none => s

/-- A discovered characteristic as the read engine sees it: the script of
its transport read outcomes. -/
structure CharStub where
  readScript : Nat → ReadOutcome

/-- The whole `_read(char_uuid)`: normalize the identifier, look it up in
`this._chars`, and run the retry loop; `parse` is
`EnvsensorChars.parseResponse` keyed by the normalized identifier.
Returns the settled outcome and the number of transport calls. -/
def readChar (chars : String → Option CharStub)
    (parse : String → List Nat → Option JVal) (id : CharId) :
    Except String JVal × Nat :=
  match normalizeCharUuid id with
  | none => (Except.error "Unknown characteristic", 0)
  | some uuid =>
    match chars uuid with
    | none => (Except.error "Unknown characteristic", 0)
    | some ch => readData ch.readScript (parse uuid)

/-- The decoded value of the Latest page characteristic (`getLatestPage`). -/
structure LatestPage where
  page : Int
  row : Nat
  measurementInterval : Int
  unixTime : Int

/-- The decoded value of the Response flag characteristic
(`getResponseFlag`). -/
structure RespFlag where
  updateFlag : Nat
  unixTime : Int

/-- One decoded Response data row (`getResponseData`): its row number and
its remaining decoded sensor fields. -/
structure RespData where
  row : Nat
  fields : List (String × Int)

/-- One entry of the resulting data list: a Response data row with the
`unixTime` / `timeStamp` fields assigned in `_getRecordedDataListFromPages`. -/
structure PageRecord where
  row : Nat
  fields : List (String × Int)
  unixTime : Int
  timeStamp : String

/-- The value resolved by `getRecordedDataList`. -/
structure RetrievalResult where
  page : Int
  measurementInterval : Int
  dataList : List PageRecord

/-- The characteristic operations the paged retrieval issues, for tracing
which transport exchanges one call performs. -/
inductive Op where
  | readAdvSetting
  | readTimeInfo
  | readLatestPage
  | writeRequestPage
  | readResponseFlag
  | readResponseData
deriving DecidableEq

/-- The settled outcomes the device presents to the paged retrieval, at
the promise boundary of `_read` / `_setValue`: each operation either
resolves with its decoded value or rejects with an error message.
Successive Response data reads are indexed by call number. -/
structure DeviceOps where
  advSetting : Except String Int
  timeInfo : Except String Int
  latestPage : Except String LatestPage
  requestPage : Int → Nat → Except String Unit
  responseFlag : Except String RespFlag
  responseData : Nat → Except String RespData

/-- The regex test `/^(0|1|7|8)$/.test(mode.toString())` of
`getRecordingStatus`. -/
def beaconModeRecords (mode : Int) : Bool :=
  mode == 0 || mode == 1 || mode == 7 || mode == 8

/-- `getRecordingStatus()`: read the ADV setting, the time information and
the latest page; `isRecording` holds when the reported unix time is
positive and the beacon mode is one of 0, 1, 7, 8.  Returns the flag and
the latest-page value, with the trace of operations issued. -/
def getRecordingStatus (dev : DeviceOps) :
    Except String (Bool × LatestPage) × List Op :=
  match dev.advSetting with
  | Except.error e => (Except.error e, [Op.readAdvSetting])
  | Except.ok mode =>
    match dev.timeInfo with
    | Except.error e => (Except.error e, [Op.readAdvSetting, Op.readTimeInfo])
    | Except.ok ut =>
      let isRec := decide (0 < ut) && beaconModeRecords mode
      match dev.latestPage with
      | Except.error e =>
        (Except.error e, [Op.readAdvSetting, Op.readTimeInfo, Op.readLatestPage])
      | Except.ok lp =>
        (Except.ok (isRec, lp), [Op.readAdvSetting, Op.readTimeInfo, Op.readLatestPage])

/-- `_getTargetPageAndRow(p)`: read the latest page; with no requested
page use its page and row, otherwise use the requested page with the
reported row when it is the latest page and row 12 otherwise. -/
def getTargetPageAndRow (dev : DeviceOps) (p : Option Int) :
    Except String (Int × Nat × Int) × List Op :=
  match dev.latestPage with
  | Except.error e => (Except.error e, [Op.readLatestPage])
  | Except.ok res =>
    match p with
    | some pg =>
      if res.page = pg then
        (Except.ok (pg, res.row, res.measurementInterval), [Op.readLatestPage])
      else
        (Except.ok (pg, 12, res.measurementInterval), [Op.readLatestPage])
    | none =>
      (Except.ok (res.page, res.row, res.measurementInterval), [Op.readLatestPage])

/-- The `getData` loop of `_getRecordedSensorDataListFromCurrentPage`:
read Response data rows, prepending each (`unshift`) until a row number
above 12 terminates the drain; a read failure aborts with its error.
`fuel` bounds the loop (the source loop itself does not terminate on a
stream that never reports a row above 12); `none` means the fuel ran out.
Also returns the number of Response data reads issued. -/
def drainAux (dev : DeviceOps) :
    Nat → Nat → List RespData → Option (Except String (List RespData)) × Nat
  | 0, _, _ => (none, 0)
  | fuel + 1, i, acc =>
    match dev.responseData i with
    | Except.error e => (some (Except.error e), 1)
    | Except.ok res =>
      if res.row > 12 then (some (Except.ok acc), 1)
      else
        let r := drainAux dev fuel (i + 1) (res :: acc)
        (r.1, r.2 + 1)

/-- The `data_list.forEach` stamping step of
`_getRecordedDataListFromPages`: walking the ascending list, assign the
running `time` as `unixTime`, derive `timeStamp` from the same `time`,
then advance `time` by the measurement interval. -/
def stampTimes (ts : Int → String) (time interval : Int) :
    List RespData → List PageRecord
  | [] => []
  | d :: rest =>
    { row := d.row, fields := d.fields, unixTime := time, timeStamp := ts time } ::
      stampTimes ts (time + interval) interval rest

/-- `_getRecordedDataListFromPages(p)`: write the request page and row,
poll the Response flag once, fail unless its update flag is the ready
code 0x01, capture its unix time, drain the page, and stamp the rows. -/
def getRecordedDataListFromPages (dev : DeviceOps) (ts : Int → String)
    (page : Int) (row : Nat) (interval : Int) (fuel : Nat) :
    Option (Except String (List PageRecord)) × List Op :=
  match dev.requestPage page row with
  | Except.error e => (some (Except.error e), [Op.writeRequestPage])
  | Except.ok _ =>
    match dev.responseFlag with
    | Except.error e =>
      (some (Except.error e), [Op.writeRequestPage, Op.readResponseFlag])
    | Except.ok fl =>
      if fl.updateFlag ≠ 1 then
        (some (Except.error
          ("Failed to set the request page (updateFlag=" ++ toString fl.updateFlag ++ ").")),
          [Op.writeRequestPage, Op.readResponseFlag])
      else
        let d := drainAux dev fuel 1 []
        let tr := [Op.writeRequestPage, Op.readResponseFlag] ++
          List.replicate d.2 Op.readResponseData
        match d.1 with
        | none => (none, tr)
        | some (Except.error e) => (some (Except.error e), tr)
        | some (Except.ok lst) =>
          (some (Except.ok (stampTimes ts fl.unixTime interval lst)), tr)

/-- The body of `getRecordedDataList` after parameter validation:
recording status check, anchor resolution, page drain. -/
def getRecordedDataListBody (dev : DeviceOps) (ts : Int → String)
    (p : Option Int) (fuel : Nat) :
    Option (Except String RetrievalResult) × List Op :=
  match getRecordingStatus dev with
  | (Except.error e, tr) => (some (Except.error e), tr)
  | (Except.ok (isRec, _), tr) =>
    if isRec = false then
      (some (Except.error "The data recording mode has not been started."), tr)
    else
      match getTargetPageAndRow dev p with
      | (Except.error e, tr2) => (some (Except.error e), tr ++ tr2)
      | (Except.ok (tpage, trow, interval), tr2) =>
        match getRecordedDataListFromPages dev ts tpage trow interval fuel with
        | (none, tr3) => (none, tr ++ tr2 ++ tr3)
        | (some (Except.error e), tr3) => (some (Except.error e), tr ++ tr2 ++ tr3)
        | (some (Except.ok dl), tr3) =>
          (some (Except.ok { page := tpage, measurementInterval := interval,
                             dataList := dl }), tr ++ tr2 ++ tr3)

/-- `getRecordedDataList([params])`: validate the optional page number
(an integer 0 to 2047), then run the retrieval. -/
def getRecordedDataList (dev : DeviceOps) (ts : Int → String)
    (params : Option Int) (fuel : Nat) :
    Option (Except String RetrievalResult) × List Op :=
  match params with
  | some pg =>
    if pg < 0 ∨ pg > 2047 then
      (some (Except.error "The page must be an integer in the range of 0 to 2047."), [])
    else getRecordedDataListBody dev ts (some pg) fuel
  | none => getRecordedDataListBody dev ts none fuel

/-- The local civil time `new Date(ms)` reports, with
`getTimezoneOffset()`; the conversion itself is the JS runtime's and is a
parameter of the model. -/
structure JsDate where
  fullYear : Int
  month : Nat
  date : Nat
  hours : Nat
  minutes : Nat
  seconds : Nat
  timezoneOffset : Int

/-- JS `('0' + n).slice(-2)`: the last two characters of the
zero-prefixed decimal rendering. -/
def pad2 (n : Nat) : String :=
  let s := "0" ++ toString n
  String.mk (s.data.drop (s.data.length - 2))

/-- `_getTimeStampFromUnixTime(unix_time)`: ISO 8601 rendering of the
local civil time of `unix_time * 1000` milliseconds, with `Z` or the
signed local offset. -/
def getTimeStampFromUnixTime (dateOf : Int → JsDate) (unix_time : Int) : String :=
  let dt := dateOf (unix_time * 1000)
  let ymd := [toString dt.fullYear, pad2 (dt.month + 1), pad2 dt.date]
  let hms := [pad2 dt.hours, pad2 dt.minutes, pad2 dt.seconds]
  let tzo := dt.timezoneOffset
  let tz :=
    if tzo = 0 then "Z"
    else (if tzo > 0 then "-" else "+") ++
      pad2 (tzo.natAbs / 60) ++ ":" ++ pad2 (tzo.natAbs % 60)
  String.intercalate "-" ymd ++ "T" ++ String.intercalate ":" hms ++ tz

lemma readAttempts_stall_step (s : Nat → ReadOutcome) (p : List Nat → Option JVal)
    (b i : Nat) (hb : 2 ≤ b) (h : s i = ReadOutcome.stall) :
    readAttempts s p b i =
      ((readAttempts s p (b - 1) (i + 1)).1, (readAttempts s p (b - 1) (i + 1)).2 + 1) := by
  rw [readAttempts.eq_def, h]
  simp [hb]

lemma readAttempts_stall_one (s : Nat → ReadOutcome) (p : List Nat → Option JVal)
    (b i : Nat) (hb : b < 2) (h : s i = ReadOutcome.stall) :
    readAttempts s p b i = (Except.error "Timeout.", 1) := by
  rw [readAttempts.eq_def, h]
  simp [Nat.not_le.mpr hb]

lemma readAttempts_err (s : Nat → ReadOutcome) (p : List Nat → Option JVal)
    (b i : Nat) (e : String) (h : s i = ReadOutcome.err e) :
    readAttempts s p b i = (Except.error e, 1) := by
  rw [readAttempts.eq_def, h]

lemma readAttempts_done (s : Nat → ReadOutcome) (p : List Nat → Option JVal)
    (b i : Nat) (buf : List Nat) (v : JVal)
    (h : s i = ReadOutcome.done buf) (hp : p buf = some v) :
    readAttempts s p b i = (Except.ok v, 1) := by
  rw [readAttempts.eq_def, h]
  simp [hp]

lemma writeAttempts_stall_step (s : Nat → WriteOutcome) (b i : Nat) (hb : 2 ≤ b)
    (h : s i = WriteOutcome.stall) :
    writeAttempts s b i =
      ((writeAttempts s (b - 1) (i + 1)).1, (writeAttempts s (b - 1) (i + 1)).2 + 1) := by
  rw [writeAttempts.eq_def, h]
  simp [hb]

lemma writeAttempts_stall_one (s : Nat → WriteOutcome) (b i : Nat) (hb : b < 2)
    (h : s i = WriteOutcome.stall) :
    writeAttempts s b i = (Except.error "Timeout.", 1) := by
  rw [writeAttempts.eq_def, h]
  simp [Nat.not_le.mpr hb]

lemma writeAttempts_err (s : Nat → WriteOutcome) (b i : Nat) (e : String)
    (h : s i = WriteOutcome.err e) :
    writeAttempts s b i = (Except.error e, 1) := by
  rw [writeAttempts.eq_def, h]

lemma writeAttempts_done (s : Nat → WriteOutcome) (b i : Nat)
    (h : s i = WriteOutcome.done) :
    writeAttempts s b i = (Except.ok (), 1) := by
  rw [writeAttempts.eq_def, h]

lemma readAttempts_calls_le (s : Nat → ReadOutcome) (p : List Nat → Option JVal) :
    ∀ b i, 1 ≤ b → (readAttempts s p b i).2 ≤ b := by
  intro b
  induction b using Nat.strong_induction_on with
  | _ b ih =>
    intro i hb
    rw [readAttempts.eq_def]
    cases hsc : s i with
    | stall =>
      by_cases h2 : 2 ≤ b
      · have h1 := ih (b - 1) (by omega) (i + 1) (by omega)
        simp only [h2, dif_pos]
        omega
      · simp only [h2, dif_neg, not_false_iff]
        omega
    | err e => simp; omega
    | done buf => cases hpb : p buf <;> simp [hpb] <;> omega

lemma writeAttempts_calls_le (s : Nat → WriteOutcome) :
    ∀ b i, 1 ≤ b → (writeAttempts s b i).2 ≤ b := by
  intro b
  induction b using Nat.strong_induction_on with
  | _ b ih =>
    intro i hb
    rw [writeAttempts.eq_def]
    cases hsc : s i with
    | stall =>
      by_cases h2 : 2 ≤ b
      · have h1 := ih (b - 1) (by omega) (i + 1) (by omega)
        simp only [h2, dif_pos]
        omega
      · simp only [h2, dif_neg, not_false_iff]
        omega
    | err e => simp; omega
    | done => simp; omega

/-- C1: for every read or write operation the engine attempts the
transport primitive at most 3 times, each attempt raced against the
5000 ms timeout; a stub stalling on the first `k < 3` attempts and then
completing makes the operation succeed with exactly `k + 1` transport
calls, and a stub that always stalls makes it fail with the Timeout
error after exactly 3 transport calls. -/
theorem requestEngine_retry_and_timeout :
    REQUEST_RETRY_MAX = 3 ∧ RESPONSE_TIMEOUT_MSEC = 5000 ∧
    (∀ s p, (readData s p).2 ≤ 3) ∧
    (∀ s, (writeData s).2 ≤ 3) ∧
    (∀ (k : Nat) (s : Nat → ReadOutcome) (p : List Nat → Option JVal)
        (buf : List Nat) (v : JVal),
      k < 3 → (∀ i, 1 ≤ i → i ≤ k → s i = ReadOutcome.stall) →
      s (k + 1) = ReadOutcome.done buf → p buf = some v →
      readData s p = (Except.ok v, k + 1)) ∧
    (∀ (k : Nat) (s : Nat → WriteOutcome),
      k < 3 → (∀ i, 1 ≤ i → i ≤ k → s i = WriteOutcome.stall) →
      s (k + 1) = WriteOutcome.done →
      writeData s = (Except.ok (), k + 1)) ∧
    (∀ s p, (∀ i, s i = ReadOutcome.stall) →
      readData s p = (Except.error "Timeout.", 3)) ∧
    (∀ s, (∀ i, s i = WriteOutcome.stall) →
      writeData s = (Except.error "Timeout.", 3)) := by
  refine ⟨rfl, rfl, ?_, ?_, ?_, ?_, ?_, ?_⟩
  · intro s p
    exact readAttempts_calls_le s p 3 1 (by omega)
  · intro s
    exact writeAttempts_calls_le s 3 1 (by omega)
  · intro k s p buf v hk hstall hdone hp
    interval_cases k
    · exact readAttempts_done s p 3 1 buf v hdone hp
    · show readAttempts s p 3 1 = _
      rw [readAttempts_stall_step s p 3 1 (by omega)
        (hstall 1 (by omega) (by omega))]
      have e2 : readAttempts s p (3 - 1) (1 + 1) = (Except.ok v, 1) :=
        readAttempts_done s p (3 - 1) (1 + 1) buf v hdone hp
      rw [e2]
    · show readAttempts s p 3 1 = _
      have h1 : s 1 = ReadOutcome.stall := hstall 1 (by omega) (by omega)
      have h2 : s 2 = ReadOutcome.stall := hstall 2 (by omega) (by omega)
      have e3 : readAttempts s p 1 3 = (Except.ok v, 1) :=
        readAttempts_done s p 1 3 buf v (by simpa using hdone) hp
      have e2 : readAttempts s p 2 2 = (Except.ok v, 2) := by
        rw [readAttempts_stall_step s p 2 2 (by omega) h2]
        norm_num [e3]
      rw [readAttempts_stall_step s p 3 1 (by omega) h1]
      norm_num [e2]
  · intro k s hk hstall hdone
    interval_cases k
    · exact writeAttempts_done s 3 1 hdone
    · show writeAttempts s 3 1 = _
      rw [writeAttempts_stall_step s 3 1 (by omega)
        (hstall 1 (by omega) (by omega))]
      have e2 : writeAttempts s (3 - 1) (1 + 1) = (Except.ok (), 1) :=
        writeAttempts_done s (3 - 1) (1 + 1) hdone
      rw [e2]
    · show writeAttempts s 3 1 = _
      have h1 : s 1 = WriteOutcome.stall := hstall 1 (by omega) (by omega)
      have h2 : s 2 = WriteOutcome.stall := hstall 2 (by omega) (by omega)
      have e3 : writeAttempts s 1 3 = (Except.ok (), 1) :=
        writeAttempts_done s 1 3 (by simpa using hdone)
      have e2 : writeAttempts s 2 2 = (Except.ok (), 2) := by
        rw [writeAttempts_stall_step s 2 2 (by omega) h2]
        norm_num [e3]
      rw [writeAttempts_stall_step s 3 1 (by omega) h1]
      norm_num [e2]
  · intro s p hs
    show readAttempts s p 3 1 = _
    have e3 : readAttempts s p 1 3 = (Except.error "Timeout.", 1) :=
      readAttempts_stall_one s p 1 3 (by omega) (hs 3)
    have e2 : readAttempts s p 2 2 = (Except.error "Timeout.", 2) := by
      rw [readAttempts_stall_step s p 2 2 (by omega) (hs 2)]
      norm_num [e3]
    rw [readAttempts_stall_step s p 3 1 (by omega) (hs 1)]
    norm_num [e2]
  · intro s hs
    show writeAttempts s 3 1 = _
    have e3 : writeAttempts s 1 3 = (Except.error "Timeout.", 1) :=
      writeAttempts_stall_one s 1 3 (by omega) (hs 3)
    have e2 : writeAttempts s 2 2 = (Except.error "Timeout.", 2) := by
      rw [writeAttempts_stall_step s 2 2 (by omega) (hs 2)]
      norm_num [e3]
    rw [writeAttempts_stall_step s 3 1 (by omega) (hs 1)]
    norm_num [e2]

/-- A stub that stalls once then completes, for the retry witness. -/
def c1ReadScript : Nat → ReadOutcome :=
  fun i => if i = 1 then ReadOutcome.stall else ReadOutcome.done [7]

/-- A parse stub for the retry witness. -/
def c1Parse : List Nat → Option JVal := fun _ => some (JVal.num 7)

/-- A write stub that stalls once then completes. -/
def c1WriteScript : Nat → WriteOutcome :=
  fun i => if i = 1 then WriteOutcome.stall else WriteOutcome.done

/-- C1 witness: one concrete stall-then-succeed stub per operation, and
one always-stalling stub per operation. -/
theorem requestEngine_retry_and_timeout_witness :
    readData c1ReadScript c1Parse = (Except.ok (JVal.num 7), 2) ∧
    writeData c1WriteScript = (Except.ok (), 2) ∧
    readData (fun _ => ReadOutcome.stall) c1Parse = (Except.error "Timeout.", 3) ∧
    writeData (fun _ => WriteOutcome.stall) = (Except.error "Timeout.", 3) :=
  ⟨requestEngine_retry_and_timeout.2.2.2.2.1 1 c1ReadScript c1Parse [7]
      (JVal.num 7) (by omega)
      (fun i h1 h2 => by
        have hi : i = 1 := by omega
        subst hi
        rfl)
      rfl rfl,
   requestEngine_retry_and_timeout.2.2.2.2.2.1 1 c1WriteScript (by omega)
      (fun i h1 h2 => by
        have hi : i = 1 := by omega
        subst hi
        rfl)
      rfl,
   requestEngine_retry_and_timeout.2.2.2.2.2.2.1 (fun _ => ReadOutcome.stall)
      c1Parse (fun _ => rfl),
   requestEngine_retry_and_timeout.2.2.2.2.2.2.2 (fun _ => WriteOutcome.stall)
      (fun _ => rfl)⟩

/-- A stub whose first transport call completes with an error while the
second would succeed, showing the engine does not retry after an error. -/
def c6ReadScript : Nat → ReadOutcome :=
  fun i => if i = 1 then ReadOutcome.err "transport error" else ReadOutcome.done [7]

/-- C6 counterexample: the first transport call completes with an error
while a second attempt would succeed and the attempt budget is not
exhausted, yet the engine makes exactly one transport call and fails with
the transport error instead of retrying. -/
theorem transportError_no_retry_counterexample :
    c6ReadScript 1 = ReadOutcome.err "transport error" ∧
    c6ReadScript 2 = ReadOutcome.done [7] ∧
    readData c6ReadScript c1Parse = (Except.error "transport error", 1) ∧
    ¬2 ≤ (readData c6ReadScript c1Parse).2 := by
  have h : readData c6ReadScript c1Parse = (Except.error "transport error", 1) :=
    readAttempts_err c6ReadScript c1Parse 3 1 "transport error" rfl
  exact ⟨rfl, rfl, h, by rw [h]; omega⟩

/-- C6 (amended): for every read or write attempt whose transport call
completes with an error, the engine fails immediately with that error —
it does not wait out the remaining timeout and makes no further attempt. -/
theorem transportError_fails_immediately :
    (∀ (s : Nat → ReadOutcome) p b i e, s i = ReadOutcome.err e →
      readAttempts s p b i = (Except.error e, 1)) ∧
    (∀ (s : Nat → WriteOutcome) b i e, s i = WriteOutcome.err e →
      writeAttempts s b i = (Except.error e, 1)) :=
  ⟨fun s p b i e h => readAttempts_err s p b i e h,
   fun s b i e h => writeAttempts_err s b i e h⟩

/-- C6 witness: a write stub erroring on its first call fails at once
with that error after a single transport call. -/
theorem transportError_fails_immediately_witness :
    writeAttempts (fun _ => WriteOutcome.err "write failed") 3 1 =
      (Except.error "write failed", 1) :=
  transportError_fails_immediately.2 (fun _ => WriteOutcome.err "write failed")
    3 1 "write failed" rfl

lemma lookupField_some_mem (k : String) (v : JVal) :
    ∀ l : List (String × JVal), lookupField k l = some v → (k, v) ∈ l := by
  intro l
  induction l with
  | nil => intro h; simp [lookupField] at h
  | cons hd tl ih =>
    obtain ⟨k', v'⟩ := hd
    intro h
    rw [lookupField] at h
    by_cases hk : k' = k
    · rw [if_pos hk] at h
      subst hk
      simp at h
      subst h
      exact List.mem_cons_self _ _
    · rw [if_neg hk] at h
      exact List.mem_cons_of_mem _ (ih h)

/-- C3: for every attribute and write request, when the merge overrides
zero fields the write fails with the "No parameter was specified." error
and no transport write is issued; conversely a transport write is only
ever issued when the merge overrode at least one field, so a write is
never a no-op. -/
theorem write_zero_overrides_fails :
    (∀ (cur : JVal) (w : JVal → Except String Unit) (os : List (String × JVal)),
      (overrideObject cur (JVal.obj os)).2 = 0 →
      setValue (Except.ok cur) w (some (JVal.obj os)) =
        (Except.error "No parameter was specified.", false)) ∧
    (∀ (c : Except String JVal) (w : JVal → Except String Unit) (p : Option JVal),
      (setValue c w p).2 = true →
      ∃ cur os, c = Except.ok cur ∧ p = some (JVal.obj os) ∧
        (overrideObject cur (JVal.obj os)).2 ≠ 0) := by
  constructor
  · intro cur w os h
    cases os with
    | nil => rfl
    | cons hd tl => simp [setValue, h]
  · intro c w p h
    rcases p with _ | pv
    · simp [setValue] at h
    · rcases pv with n | s | os
      · simp [setValue] at h
      · simp [setValue] at h
      · rcases os with _ | ⟨hd, tl⟩
        · simp [setValue] at h
        · cases c with
          | error e => simp [setValue] at h
          | ok cur =>
            by_cases hr : (overrideObject cur (JVal.obj (hd :: tl))).2 = 0
            · simp [setValue, hr] at h
            · exact ⟨cur, hd :: tl, rfl, rfl, hr⟩

/-- C3 witness: a request whose only field name is absent from the
current value overrides nothing and is rejected without a write. -/
theorem write_zero_overrides_fails_witness :
    setValue (Except.ok (JVal.obj [("a", JVal.num 1)])) (fun _ => Except.ok ())
      (some (JVal.obj [("b", JVal.num 2)])) =
      (Except.error "No parameter was specified.", false) :=
  write_zero_overrides_fails.1 (JVal.obj [("a", JVal.num 1)])
    (fun _ => Except.ok ()) [("b", JVal.num 2)] rfl

/-- C10: the merge only overrides keys already present in the current
value (the merged value has exactly the base's keys); base keys absent
from the request are untouched and request keys absent from the base are
ignored and not counted, so a non-empty request containing only unknown
field names fails with the "No parameter was specified." error without a
transport write. -/
theorem merge_ignores_unknown_fields :
    (∀ (bs os : List (String × JVal)),
      (overrideFields bs os).1.map Prod.fst = bs.map Prod.fst) ∧
    (∀ (bs os : List (String × JVal)),
      (∀ k bv, (k, bv) ∈ bs → lookupField k os = none) →
      overrideFields bs os = (bs, 0)) ∧
    (∀ (w : JVal → Except String Unit) (bs os : List (String × JVal)),
      os ≠ [] →
      (∀ k v, (k, v) ∈ os → lookupField k bs = none) →
      setValue (Except.ok (JVal.obj bs)) w (some (JVal.obj os)) =
        (Except.error "No parameter was specified.", false)) := by
  have keys : ∀ (bs os : List (String × JVal)),
      (overrideFields bs os).1.map Prod.fst = bs.map Prod.fst := by
    intro bs os
    induction bs with
    | nil => rfl
    | cons hd tl ih =>
      obtain ⟨k, bv⟩ := hd
      rw [overrideFields]
      cases h : lookupField k os with
      | none => simpa using ih
      | some v => cases v <;> simpa using ih
  have untouched : ∀ (bs os : List (String × JVal)),
      (∀ k bv, (k, bv) ∈ bs → lookupField k os = none) →
      overrideFields bs os = (bs, 0) := by
    intro bs os
    induction bs with
    | nil => intro _; rfl
    | cons hd tl ih =>
      obtain ⟨k, bv⟩ := hd
      intro h
      rw [overrideFields]
      rw [h k bv (List.mem_cons_self _ _)]
      rw [ih (fun k' bv' hm => h k' bv' (List.mem_cons_of_mem _ hm))]
  have ne_none : ∀ (k : String) (v : JVal) (l : List (String × JVal)),
      (k, v) ∈ l → lookupField k l ≠ none := by
    intro k v l
    induction l with
    | nil => intro hm; simp at hm
    | cons hd tl ih =>
      obtain ⟨k', bv'⟩ := hd
      intro hm
      rw [lookupField]
      by_cases hk : k' = k
      · rw [if_pos hk]
        simp
      · rw [if_neg hk]
        rcases List.mem_cons.mp hm with heq | hm'
        · exact absurd (by injection heq with h1 _; exact h1.symm) hk
        · exact ih hm'
  refine ⟨keys, untouched, ?_⟩
  intro w bs os hne hunknown
  have hbase : ∀ k bv, (k, bv) ∈ bs → lookupField k os = none := by
    intro k bv hm
    cases hlk : lookupField k os with
    | none => rfl
    | some v =>
      have hmem : (k, v) ∈ os := lookupField_some_mem k v os hlk
      exact absurd (hunknown k v hmem) (ne_none k bv bs hm)
  have hov : overrideObject (JVal.obj bs) (JVal.obj os) = (JVal.obj bs, 0) := by
    rw [overrideObject, untouched bs os hbase]
  cases os with
  | nil => exact absurd rfl hne
  | cons hd tl => simp [setValue, hov]

/-- C10 witness: a one-field request whose field name is unknown to the
current two-field value is ignored by the merge and rejected. -/
theorem merge_ignores_unknown_fields_witness :
    overrideFields [("a", JVal.num 1), ("b", JVal.num 2)] [("c", JVal.num 9)] =
      ([("a", JVal.num 1), ("b", JVal.num 2)], 0) ∧
    setValue (Except.ok (JVal.obj [("a", JVal.num 1), ("b", JVal.num 2)]))
      (fun _ => Except.ok ()) (some (JVal.obj [("c", JVal.num 9)])) =
      (Except.error "No parameter was specified.", false) :=
  ⟨merge_ignores_unknown_fields.2.1 _ _
      (fun k bv hm => by fin_cases hm <;> rfl),
   merge_ignores_unknown_fields.2.2 (fun _ => Except.ok ()) _ _ (by simp)
      (fun k v hm => by fin_cases hm; rfl)⟩

/-- C4: anchor resolution of `_getTargetPageAndRow` — no requested page
uses the latest page and its latest row; a requested page different from
the latest page uses row 12; a requested page equal to the latest page
uses the reported latest row. -/
theorem anchor_resolution (dev : DeviceOps) (lp : LatestPage)
    (h : dev.latestPage = Except.ok lp) :
    getTargetPageAndRow dev none =
      (Except.ok (lp.page, lp.row, lp.measurementInterval), [Op.readLatestPage]) ∧
    (∀ pg, pg ≠ lp.page →
      getTargetPageAndRow dev (some pg) =
        (Except.ok (pg, 12, lp.measurementInterval), [Op.readLatestPage])) ∧
    getTargetPageAndRow dev (some lp.page) =
      (Except.ok (lp.page, lp.row, lp.measurementInterval), [Op.readLatestPage]) := by
  refine ⟨?_, ?_, ?_⟩
  · simp [getTargetPageAndRow, h]
  · intro pg hne
    simp [getTargetPageAndRow, h, Ne.symm hne]
  · simp [getTargetPageAndRow, h]

/-- A device reporting latest page 5 and latest row 4. -/
def c4Dev : DeviceOps :=
  { advSetting := Except.ok 8, timeInfo := Except.ok 1,
    latestPage := Except.ok
      { page := 5, row := 4, measurementInterval := 300, unixTime := 1000 },
    requestPage := fun _ _ => Except.ok (),
    responseFlag := Except.ok { updateFlag := 1, unixTime := 1000 },
    responseData := fun _ => Except.ok { row := 13, fields := [] } }

/-- C4 witness: requesting page 5 with latest page 5 and latest row 4
anchors at row 4, not row 12; a different page anchors at row 12; no
page anchors at the latest page and row. -/
theorem anchor_resolution_witness :
    getTargetPageAndRow c4Dev (some 5) =
      (Except.ok (5, 4, 300), [Op.readLatestPage]) ∧
    getTargetPageAndRow c4Dev (some 3) =
      (Except.ok (3, 12, 300), [Op.readLatestPage]) ∧
    getTargetPageAndRow c4Dev none =
      (Except.ok (5, 4, 300), [Op.readLatestPage]) :=
  ⟨(anchor_resolution c4Dev _ rfl).2.2,
   (anchor_resolution c4Dev _ rfl).2.1 3 (by decide),
   (anchor_resolution c4Dev _ rfl).1⟩

/-- Default row used with `List.getD` over drained rows. -/
def defaultRespData : RespData := { row := 0, fields := [] }

/-- Default record used with `List.getD` over stamped records. -/
def defaultPageRecord : PageRecord :=
  { row := 0, fields := [], unixTime := 0, timeStamp := "" }

lemma stampTimes_length (ts : Int → String) (interval : Int) :
    ∀ (l : List RespData) (t : Int), (stampTimes ts t interval l).length = l.length := by
  intro l
  induction l with
  | nil => intro t; rfl
  | cons d rest ih => intro t; simp [stampTimes, ih]

lemma stampTimes_getD (ts : Int → String) (interval : Int) :
    ∀ (l : List RespData) (t : Int) (i : Nat), i < l.length →
      (stampTimes ts t interval l).getD i defaultPageRecord =
        { row := (l.getD i defaultRespData).row,
          fields := (l.getD i defaultRespData).fields,
          unixTime := t + interval * i,
          timeStamp := ts (t + interval * i) } := by
  intro l
  induction l with
  | nil => intro t i h; simp at h
  | cons d rest ih =>
    intro t i h
    cases i with
    | zero => simp [stampTimes]
    | succ j =>
      have hj : j < rest.length := by simpa using h
      have harith : t + interval + interval * j = t + interval * (j + 1) := by ring
      have hrec := ih (t + interval) j hj
      rw [harith] at hrec
      simpa [stampTimes, List.getD_cons_succ] using hrec

/-- A scripted Response data stream: rows with descending indices
12, 11, ..., 0 on the first 13 reads, then the sentinel index 13. -/
def c2RespScript : Nat → Except String RespData :=
  fun i => if i ≤ 13 then Except.ok { row := 13 - i, fields := [] }
           else Except.ok { row := 13, fields := [] }

/-- A recording device serving the descending-rows script, reporting
anchor time `t` and measurement interval `interval`. -/
def c2Dev (t interval : Int) : DeviceOps :=
  { advSetting := Except.ok 8, timeInfo := Except.ok 1,
    latestPage := Except.ok
      { page := 0, row := 12, measurementInterval := interval, unixTime := t },
    requestPage := fun _ _ => Except.ok (),
    responseFlag := Except.ok { updateFlag := 1, unixTime := t },
    responseData := c2RespScript }

/-- The drained rows of the descending script, in ascending order. -/
def c2Rows : List RespData :=
  (List.range 13).map (fun r => { row := r, fields := [] })

/-- C2 counterexample: with the scripted stub streaming rows 12 down to 0
and then the sentinel 13, the completed retrieval's ascending list has 13
entries, not the 12 the claim states. -/
theorem paged_retrieval_twelve_rows_counterexample :
    ((getRecordedDataListFromPages (c2Dev 1000 60) (fun _ => "") 0 12 60 20).1.map
      (fun e => e.map List.length)) = some (Except.ok 13) ∧ (13 : Nat) ≠ 12 :=
  ⟨rfl, by omega⟩

/-- C2 (amended): with the scripted stub streaming rows 12 down to 0 and
then the sentinel 13, draining terminates at the sentinel and the result
is an ascending list of 13 entries (rows 0 through 12) whose unix times
increase by exactly the measurement interval per step, anchored at the
time captured from the ready response flag. -/
theorem paged_retrieval_descending_rows (t interval : Int) (ts : Int → String) :
    (getRecordedDataListFromPages (c2Dev t interval) ts 0 12 interval 20).1 =
      some (Except.ok (stampTimes ts t interval c2Rows)) ∧
    (stampTimes ts t interval c2Rows).length = 13 ∧
    (∀ i, i < 13 →
      ((stampTimes ts t interval c2Rows).getD i defaultPageRecord).row = i ∧
      ((stampTimes ts t interval c2Rows).getD i defaultPageRecord).unixTime =
        t + interval * i) := by
  refine ⟨rfl, rfl, ?_⟩
  intro i hi
  have hlen : i < c2Rows.length := by
    have : c2Rows.length = 13 := rfl
    omega
  rw [stampTimes_getD ts interval c2Rows t i hlen]
  refine ⟨?_, rfl⟩
  show (c2Rows.getD i defaultRespData).row = i
  interval_cases i <;> rfl

/-- C2 witness: the amended statement at anchor time 1000 and interval
60; the first and last stamped times are 1000 and 1720. -/
theorem paged_retrieval_descending_rows_witness :
    (getRecordedDataListFromPages (c2Dev 1000 60) (fun _ => "") 0 12 60 20).1 =
      some (Except.ok (stampTimes (fun _ => "") 1000 60 c2Rows)) ∧
    ((stampTimes (fun _ => "") 1000 60 c2Rows).getD 0 defaultPageRecord).unixTime
      = 1000 ∧
    ((stampTimes (fun _ => "") 1000 60 c2Rows).getD 12 defaultPageRecord).unixTime
      = 1720 := by
  refine ⟨(paged_retrieval_descending_rows 1000 60 (fun _ => "")).1, ?_, ?_⟩
  · rw [((paged_retrieval_descending_rows 1000 60 (fun _ => "")).2.2 0
      (by omega)).2]
    norm_num
  · rw [((paged_retrieval_descending_rows 1000 60 (fun _ => "")).2.2 12
      (by omega)).2]
    norm_num

lemma pipeline_fst_requestError (dev : DeviceOps) (ts : Int → String)
    (page : Int) (row : Nat) (interval : Int) (fuel : Nat) (e : String)
    (hrp : dev.requestPage page row = Except.error e) :
    (getRecordedDataListFromPages dev ts page row interval fuel).1 =
      some (Except.error e) := by
  unfold getRecordedDataListFromPages
  rw [hrp]

lemma pipeline_fst_flagError (dev : DeviceOps) (ts : Int → String)
    (page : Int) (row : Nat) (interval : Int) (fuel : Nat) (e : String)
    (hrp : dev.requestPage page row = Except.ok ())
    (hfl : dev.responseFlag = Except.error e) :
    (getRecordedDataListFromPages dev ts page row interval fuel).1 =
      some (Except.error e) := by
  unfold getRecordedDataListFromPages
  rw [hrp, hfl]

lemma pipeline_fst_notReady (dev : DeviceOps) (ts : Int → String)
    (page : Int) (row : Nat) (interval : Int) (fuel : Nat) (fl : RespFlag)
    (hrp : dev.requestPage page row = Except.ok ())
    (hfl : dev.responseFlag = Except.ok fl)
    (hnotready : fl.updateFlag ≠ 1) :
    (getRecordedDataListFromPages dev ts page row interval fuel).1 =
      some (Except.error
        ("Failed to set the request page (updateFlag=" ++
          toString fl.updateFlag ++ ").")) := by
  unfold getRecordedDataListFromPages
  rw [hrp, hfl]
  simp [hnotready]

lemma pipeline_fst_drain_none (dev : DeviceOps) (ts : Int → String)
    (page : Int) (row : Nat) (interval : Int) (fuel : Nat) (fl : RespFlag) (n : Nat)
    (hrp : dev.requestPage page row = Except.ok ())
    (hfl : dev.responseFlag = Except.ok fl)
    (hready : fl.updateFlag = 1)
    (hd : drainAux dev fuel 1 [] = (none, n)) :
    (getRecordedDataListFromPages dev ts page row interval fuel).1 = none := by
  unfold getRecordedDataListFromPages
  rw [hrp, hfl, hd]
  simp [hready]

lemma pipeline_fst_drain_err (dev : DeviceOps) (ts : Int → String)
    (page : Int) (row : Nat) (interval : Int) (fuel : Nat) (fl : RespFlag)
    (e : String) (n : Nat)
    (hrp : dev.requestPage page row = Except.ok ())
    (hfl : dev.responseFlag = Except.ok fl)
    (hready : fl.updateFlag = 1)
    (hd : drainAux dev fuel 1 [] = (some (Except.error e), n)) :
    (getRecordedDataListFromPages dev ts page row interval fuel).1 =
      some (Except.error e) := by
  unfold getRecordedDataListFromPages
  rw [hrp, hfl, hd]
  simp [hready]

lemma pipeline_fst_drain_ok (dev : DeviceOps) (ts : Int → String)
    (page : Int) (row : Nat) (interval : Int) (fuel : Nat) (fl : RespFlag)
    (l : List RespData) (n : Nat)
    (hrp : dev.requestPage page row = Except.ok ())
    (hfl : dev.responseFlag = Except.ok fl)
    (hready : fl.updateFlag = 1)
    (hd : drainAux dev fuel 1 [] = (some (Except.ok l), n)) :
    (getRecordedDataListFromPages dev ts page row interval fuel).1 =
      some (Except.ok (stampTimes ts fl.unixTime interval l)) := by
  unfold getRecordedDataListFromPages
  rw [hrp, hfl, hd]
  simp [hready]

lemma drainAux_read_error (dev : DeviceOps) (i : Nat) (acc : List RespData)
    (e : String) (fuel : Nat) (hfuel : 1 ≤ fuel)
    (h : dev.responseData i = Except.error e) :
    drainAux dev fuel i acc = (some (Except.error e), 1) := by
  cases fuel with
  | zero => omega
  | succ f => simp [drainAux, h]

/-- A device whose page drain yields a single row with row index 5
followed by the sentinel. -/
def c5Dev : DeviceOps :=
  { advSetting := Except.ok 8, timeInfo := Except.ok 1,
    latestPage := Except.ok
      { page := 0, row := 5, measurementInterval := 60, unixTime := 1000 },
    requestPage := fun _ _ => Except.ok (),
    responseFlag := Except.ok { updateFlag := 1, unixTime := 1000 },
    responseData := fun i =>
      if i = 1 then Except.ok { row := 5, fields := [] }
      else Except.ok { row := 13, fields := [] } }

/-- C5 counterexample: a completed retrieval whose single drained row has
row index 5 is stamped with the anchor time itself (its position is 0),
not anchor + 5 * interval as the claim's row-index formula states. -/
theorem timestamp_row_index_counterexample :
    ((getRecordedDataListFromPages c5Dev (fun _ => "") 0 5 60 20).1.map
      (fun e => e.map (fun l => l.map (fun r => (r.row, r.unixTime))))) =
      some (Except.ok [((5 : Nat), (1000 : Int))]) ∧
    (1000 : Int) ≠ 1000 + 60 * 5 :=
  ⟨rfl, by omega⟩

/-- C5 (amended): in every completed paged retrieval, the row at position
i of the ascending list is stamped with unix time
anchor + i * measurement interval (the anchor being the unix time
captured from the ready response flag) — this equals the row-index
formula exactly when the page drains contiguously down to row 0 — and its
ISO-8601 timestamp is derived from that same unix time by
`_getTimeStampFromUnixTime`. -/
theorem timestamps_by_position (dev : DeviceOps) (dateOf : Int → JsDate)
    (page : Int) (row : Nat) (interval : Int) (fuel : Nat) (fl : RespFlag)
    (lst : List PageRecord)
    (hfl : dev.responseFlag = Except.ok fl)
    (hres : (getRecordedDataListFromPages dev (getTimeStampFromUnixTime dateOf)
      page row interval fuel).1 = some (Except.ok lst)) :
    ∀ i, i < lst.length →
      (lst.getD i defaultPageRecord).unixTime = fl.unixTime + interval * i ∧
      (lst.getD i defaultPageRecord).timeStamp =
        getTimeStampFromUnixTime dateOf (fl.unixTime + interval * i) := by
  cases hrp : dev.requestPage page row with
  | error e =>
    rw [pipeline_fst_requestError dev _ page row interval fuel e hrp] at hres
    simp at hres
  | ok u =>
    cases u
    by_cases hready : fl.updateFlag = 1
    · rcases hdr : drainAux dev fuel 1 [] with ⟨o, n⟩
      rcases o with _ | r
      · rw [pipeline_fst_drain_none dev _ page row interval fuel fl n
          hrp hfl hready hdr] at hres
        simp at hres
      · rcases r with e | l
        · rw [pipeline_fst_drain_err dev _ page row interval fuel fl e n
            hrp hfl hready hdr] at hres
          simp at hres
        · rw [pipeline_fst_drain_ok dev _ page row interval fuel fl l n
            hrp hfl hready hdr] at hres
          simp at hres
          subst hres
          intro i hilen
          have hl : i < l.length := by
            rw [stampTimes_length] at hilen
            exact hilen
          rw [stampTimes_getD (getTimeStampFromUnixTime dateOf) interval l
            fl.unixTime i hl]
          exact ⟨rfl, rfl⟩
    · rw [pipeline_fst_notReady dev _ page row interval fuel fl hrp hfl hready]
        at hres
      simp at hres

/-- A fixed local-time conversion stub for the timestamp witness. -/
def c5DateOf : Int → JsDate :=
  fun _ => { fullYear := 1970, month := 0, date := 1, hours := 0, minutes := 0,
             seconds := 0, timezoneOffset := 0 }

/-- C5 witness: in the completed descending-rows retrieval the record at
position 3 carries unix time 1000 + 60 * 3 and the ISO-8601 string
derived from that same time. -/
theorem timestamps_by_position_witness :
    ((stampTimes (getTimeStampFromUnixTime c5DateOf) 1000 60 c2Rows).getD 3
      defaultPageRecord).unixTime = 1000 + 60 * 3 ∧
    ((stampTimes (getTimeStampFromUnixTime c5DateOf) 1000 60 c2Rows).getD 3
      defaultPageRecord).timeStamp =
      getTimeStampFromUnixTime c5DateOf (1000 + 60 * 3) := by
  have h := timestamps_by_position (c2Dev 1000 60) c5DateOf 0 12 60 20
    { updateFlag := 1, unixTime := 1000 }
    (stampTimes (getTimeStampFromUnixTime c5DateOf) 1000 60 c2Rows) rfl rfl 3
    (by rw [stampTimes_length]; decide)
  exact h

/-- C7: any read or write failure during the requesting, awaiting or
draining steps — including a response flag reporting a non-ready code —
aborts the retrieval and surfaces that error; a successful result always
comes from a fully sentinel-terminated drain, so the caller never
receives a partial row list. -/
theorem retrieval_failure_aborts :
    (∀ (dev : DeviceOps) (ts : Int → String) (page : Int) (row : Nat)
        (interval : Int) (fuel : Nat) (e : String),
      dev.requestPage page row = Except.error e →
      (getRecordedDataListFromPages dev ts page row interval fuel).1 =
        some (Except.error e)) ∧
    (∀ (dev : DeviceOps) (ts : Int → String) (page : Int) (row : Nat)
        (interval : Int) (fuel : Nat) (e : String),
      dev.requestPage page row = Except.ok () →
      dev.responseFlag = Except.error e →
      (getRecordedDataListFromPages dev ts page row interval fuel).1 =
        some (Except.error e)) ∧
    (∀ (dev : DeviceOps) (ts : Int → String) (page : Int) (row : Nat)
        (interval : Int) (fuel : Nat) (fl : RespFlag),
      dev.requestPage page row = Except.ok () →
      dev.responseFlag = Except.ok fl → fl.updateFlag ≠ 1 →
      (getRecordedDataListFromPages dev ts page row interval fuel).1 =
        some (Except.error
          ("Failed to set the request page (updateFlag=" ++
            toString fl.updateFlag ++ ")."))) ∧
    (∀ (dev : DeviceOps) (i : Nat) (acc : List RespData) (e : String)
        (fuel : Nat),
      1 ≤ fuel → dev.responseData i = Except.error e →
      drainAux dev fuel i acc = (some (Except.error e), 1)) ∧
    (∀ (dev : DeviceOps) (ts : Int → String) (page : Int) (row : Nat)
        (interval : Int) (fuel : Nat) (fl : RespFlag) (e : String) (n : Nat),
      dev.requestPage page row = Except.ok () →
      dev.responseFlag = Except.ok fl → fl.updateFlag = 1 →
      drainAux dev fuel 1 [] = (some (Except.error e), n) →
      (getRecordedDataListFromPages dev ts page row interval fuel).1 =
        some (Except.error e)) ∧
    (∀ (dev : DeviceOps) (ts : Int → String) (page : Int) (row : Nat)
        (interval : Int) (fuel : Nat) (lst : List PageRecord),
      (getRecordedDataListFromPages dev ts page row interval fuel).1 =
        some (Except.ok lst) →
      ∃ fl l n, dev.responseFlag = Except.ok fl ∧ fl.updateFlag = 1 ∧
        drainAux dev fuel 1 [] = (some (Except.ok l), n) ∧
        lst = stampTimes ts fl.unixTime interval l) := by
  refine ⟨pipeline_fst_requestError, pipeline_fst_flagError,
    pipeline_fst_notReady, ?_, pipeline_fst_drain_err, ?_⟩
  · intro dev i acc e fuel hfuel h
    exact drainAux_read_error dev i acc e fuel hfuel h
  · intro dev ts page row interval fuel lst hres
    cases hrp : dev.requestPage page row with
    | error e =>
      rw [pipeline_fst_requestError dev ts page row interval fuel e hrp] at hres
      simp at hres
    | ok u =>
      cases u
      cases hfl : dev.responseFlag with
      | error e =>
        rw [pipeline_fst_flagError dev ts page row interval fuel e hrp hfl]
          at hres
        simp at hres
      | ok fl =>
        by_cases hready : fl.updateFlag = 1
        · rcases hdr : drainAux dev fuel 1 [] with ⟨o, n⟩
          rcases o with _ | r
          · rw [pipeline_fst_drain_none dev ts page row interval fuel fl n
              hrp hfl hready hdr] at hres
            simp at hres
          · rcases r with e | l
            · rw [pipeline_fst_drain_err dev ts page row interval fuel fl e n
                hrp hfl hready hdr] at hres
              simp at hres
            · rw [pipeline_fst_drain_ok dev ts page row interval fuel fl l n
                hrp hfl hready hdr] at hres
              simp at hres
              exact ⟨fl, l, n, rfl, hready, rfl, hres.symm⟩
        · rw [pipeline_fst_notReady dev ts page row interval fuel fl
            hrp hfl hready] at hres
          simp at hres

/-- A device whose request-page write fails. -/
def c7Dev : DeviceOps :=
  { advSetting := Except.ok 8, timeInfo := Except.ok 1,
    latestPage := Except.ok
      { page := 0, row := 12, measurementInterval := 60, unixTime := 0 },
    requestPage := fun _ _ => Except.error "write failed",
    responseFlag := Except.ok { updateFlag := 1, unixTime := 0 },
    responseData := fun _ => Except.ok { row := 13, fields := [] } }

/-- A device whose response flag reports the non-ready code 0. -/
def c7DevNotReady : DeviceOps :=
  { advSetting := Except.ok 8, timeInfo := Except.ok 1,
    latestPage := Except.ok
      { page := 0, row := 12, measurementInterval := 60, unixTime := 0 },
    requestPage := fun _ _ => Except.ok (),
    responseFlag := Except.ok { updateFlag := 0, unixTime := 0 },
    responseData := fun _ => Except.ok { row := 13, fields := [] } }

/-- C7 witness: a failing request-page write aborts with its error, and a
non-ready response flag aborts with the update-flag error. -/
theorem retrieval_failure_aborts_witness :
    (getRecordedDataListFromPages c7Dev (fun _ => "") 0 12 60 5).1 =
      some (Except.error "write failed") ∧
    (getRecordedDataListFromPages c7DevNotReady (fun _ => "") 0 12 60 5).1 =
      some (Except.error "Failed to set the request page (updateFlag=0).") :=
  ⟨retrieval_failure_aborts.1 c7Dev (fun _ => "") 0 12 60 5 "write failed" rfl,
   retrieval_failure_aborts.2.2.1 c7DevNotReady (fun _ => "") 0 12 60 5
     { updateFlag := 0, unixTime := 0 } rfl rfl (by decide)⟩

/-- C9: when the recording status resolves with `isRecording` false, the
retrieval rejects with "The data recording mode has not been started."
and its trace contains no request-page write, no response-flag poll and
no response-data read. -/
theorem not_recording_rejects_early (dev : DeviceOps) (ts : Int → String)
    (fuel : Nat) (params : Option Int) (mode ut : Int) (lp : LatestPage)
    (ha : dev.advSetting = Except.ok mode) (ht : dev.timeInfo = Except.ok ut)
    (hl : dev.latestPage = Except.ok lp)
    (hnr : ¬(0 < ut ∧ (mode = 0 ∨ mode = 1 ∨ mode = 7 ∨ mode = 8)))
    (hp : params = none ∨ ∃ pg, params = some pg ∧ 0 ≤ pg ∧ pg ≤ 2047) :
    (getRecordedDataList dev ts params fuel).1 =
      some (Except.error "The data recording mode has not been started.") ∧
    Op.writeRequestPage ∉ (getRecordedDataList dev ts params fuel).2 ∧
    Op.readResponseFlag ∉ (getRecordedDataList dev ts params fuel).2 ∧
    Op.readResponseData ∉ (getRecordedDataList dev ts params fuel).2 := by
  have hb : (decide (0 < ut) && beaconModeRecords mode) = false := by
    apply eq_false_of_ne_true
    intro htrue
    rw [Bool.and_eq_true] at htrue
    refine hnr ⟨of_decide_eq_true htrue.1, ?_⟩
    have h2 := htrue.2
    rw [beaconModeRecords] at h2
    simp only [Bool.or_eq_true, beq_iff_eq] at h2
    tauto
  have hstatus : getRecordingStatus dev =
      (Except.ok (false, lp),
       [Op.readAdvSetting, Op.readTimeInfo, Op.readLatestPage]) := by
    unfold getRecordingStatus
    rw [ha, ht, hl]
    simp [hb]
  have hbody : getRecordedDataListBody dev ts params fuel =
      (some (Except.error "The data recording mode has not been started."),
       [Op.readAdvSetting, Op.readTimeInfo, Op.readLatestPage]) := by
    unfold getRecordedDataListBody
    rw [hstatus]
    simp
  have key : getRecordedDataList dev ts params fuel =
      (some (Except.error "The data recording mode has not been started."),
       [Op.readAdvSetting, Op.readTimeInfo, Op.readLatestPage]) := by
    rcases hp with rfl | ⟨pg, rfl, h0, h2047⟩
    · exact hbody
    · have hcond : ¬(pg < 0 ∨ pg > 2047) := by omega
      calc getRecordedDataList dev ts (some pg) fuel
          = if pg < 0 ∨ pg > 2047 then
              (some (Except.error
                "The page must be an integer in the range of 0 to 2047."), [])
            else getRecordedDataListBody dev ts (some pg) fuel := rfl
        _ = getRecordedDataListBody dev ts (some pg) fuel := by rw [if_neg hcond]
        _ = _ := hbody
  refine ⟨?_, ?_, ?_, ?_⟩ <;> rw [key] <;> decide

/-- A device whose beacon mode 2 means recording is stopped. -/
def c9Dev : DeviceOps :=
  { advSetting := Except.ok 2, timeInfo := Except.ok 100,
    latestPage := Except.ok
      { page := 0, row := 0, measurementInterval := 300, unixTime := 0 },
    requestPage := fun _ _ => Except.ok (),
    responseFlag := Except.ok { updateFlag := 1, unixTime := 0 },
    responseData := fun _ => Except.ok { row := 13, fields := [] } }

/-- C9 witness: a device in beacon mode 2 makes the retrieval reject with
the not-started error without issuing a request-page write. -/
theorem not_recording_rejects_early_witness :
    (getRecordedDataList c9Dev (fun _ => "") none 5).1 =
      some (Except.error "The data recording mode has not been started.") ∧
    Op.writeRequestPage ∉ (getRecordedDataList c9Dev (fun _ => "") none 5).2 := by
  have h := not_recording_rejects_early c9Dev (fun _ => "") 5 none 2 100
    { page := 0, row := 0, measurementInterval := 300, unixTime := 0 }
    rfl rfl rfl (by decide) (Or.inl rfl)
  exact ⟨h.1, h.2.1⟩

/-- The 22 characters of hexadecimal identifiers in either case. -/
def HEX_DIGIT_ANY : List Char := "0123456789abcdefABCDEF".data

/-- A hexadecimal digit character in either case. -/
def isHexAny (c : Char) : Bool := decide (c ∈ HEX_DIGIT_ANY)

lemma hexDigit_lower (d : Nat) : jsToLowerChar (hexDigit d) = hexDigit d := by
  by_cases h : d < 16
  · interval_cases d <;> rfl
  · have h2 : hexDigit d = '0' := by
      unfold hexDigit
      apply List.getD_eq_default
      simp [hexDigitChars]
      omega
    rw [h2]
    rfl

lemma map_jsToLowerChar_fix : ∀ l : List Char,
    (∀ c ∈ l, jsToLowerChar c = c) → l.map jsToLowerChar = l := by
  intro l
  induction l with
  | nil => intro _; rfl
  | cons hd tl ih =>
    intro h
    rw [List.map_cons, h hd (List.mem_cons_self _ _),
      ih (fun c hc => h c (List.mem_cons_of_mem _ hc))]

lemma natToHexAux_lower : ∀ (n : Nat) (acc : List Char),
    (∀ c ∈ acc, jsToLowerChar c = c) →
    (natToHexAux n acc).map jsToLowerChar = natToHexAux n acc := by
  intro n
  induction n using Nat.strong_induction_on with
  | _ n ih =>
    intro acc hacc
    rw [natToHexAux.eq_def]
    by_cases h : n < 16
    · rw [dif_pos h]
      exact map_jsToLowerChar_fix _ (fun c hc => by
        rcases List.mem_cons.mp hc with rfl | hc'
        · exact hexDigit_lower n
        · exact hacc c hc')
    · rw [dif_neg h]
      exact ih (n / 16) (Nat.div_lt_self (by omega) (by omega)) _ (fun c hc => by
        rcases List.mem_cons.mp hc with rfl | hc'
        · exact hexDigit_lower (n % 16)
        · exact hacc c hc')

lemma lower_upper_char (c : Char) (h : isHexAny c = true) :
    jsToLowerChar (jsToUpperChar c) = jsToLowerChar c := by
  have hm : c ∈ HEX_DIGIT_ANY := of_decide_eq_true h
  fin_cases hm <;> rfl

lemma lower_upper_list : ∀ l : List Char, l.all isHexAny = true →
    (l.map jsToUpperChar).map jsToLowerChar = l.map jsToLowerChar := by
  intro l
  induction l with
  | nil => intro _; rfl
  | cons hd tl ih =>
    intro h
    rw [List.all_cons, Bool.and_eq_true] at h
    simp only [List.map_cons]
    rw [lower_upper_char hd h.1, ih h.2]

/-- C8: identifier normalization — a long-form UUID matching the base
pattern is reduced to its 4-digit variable segment when the table is
built; numeric identifiers are rendered as lowercase hex; string
identifiers are lowercased, so reading an identifier and its uppercase
form behave identically for any characteristic table and any transport. -/
theorem id_normalization :
    (∀ seg : List Char, seg.length = 4 → seg.all isHexLower = true →
      initNormalizeUuid
        (String.mk (BASE_UUID_PREFIX ++ (seg ++ BASE_UUID_SUFFIX))) =
        String.mk seg) ∧
    (∀ n : Nat, normalizeCharUuid (CharId.num n) = some (natToHex n) ∧
      jsToLower (natToHex n) = natToHex n) ∧
    (∀ s : String, s.data.all isHexAny = true →
      ∀ (chars : String → Option CharStub)
        (parse : String → List Nat → Option JVal),
      readChar chars parse (CharId.str (jsToUpper s)) =
        readChar chars parse (CharId.str s)) := by
  refine ⟨?_, ?_, ?_⟩
  · intro seg hlen hhex
    have hP : BASE_UUID_PREFIX.length = 4 := rfl
    have hS : BASE_UUID_SUFFIX.length = 24 := rfl
    have hPS : (BASE_UUID_PREFIX ++ seg).length = 8 := by
      rw [List.length_append, hP, hlen]
    have h1 : (BASE_UUID_PREFIX ++ (seg ++ BASE_UUID_SUFFIX)).length = 32 := by
      rw [List.length_append, List.length_append, hP, hS, hlen]
    have h2 : (BASE_UUID_PREFIX ++ (seg ++ BASE_UUID_SUFFIX)).take 4 =
        BASE_UUID_PREFIX := List.take_left' hP
    have h3 : (BASE_UUID_PREFIX ++ (seg ++ BASE_UUID_SUFFIX)).drop 8 =
        BASE_UUID_SUFFIX := by
      rw [← List.append_assoc]
      exact List.drop_left' hPS
    have h4 : ((BASE_UUID_PREFIX ++ (seg ++ BASE_UUID_SUFFIX)).drop 4).take 4 =
        seg := by
      rw [List.drop_left' hP]
      exact List.take_left' hlen
    have hbm : baseUuidMatch
        (String.mk (BASE_UUID_PREFIX ++ (seg ++ BASE_UUID_SUFFIX))) =
        some (String.mk seg) := by
      show (if (BASE_UUID_PREFIX ++ (seg ++ BASE_UUID_SUFFIX)).length = 32 ∧
            (BASE_UUID_PREFIX ++ (seg ++ BASE_UUID_SUFFIX)).take 4 =
              BASE_UUID_PREFIX ∧
            (BASE_UUID_PREFIX ++ (seg ++ BASE_UUID_SUFFIX)).drop 8 =
              BASE_UUID_SUFFIX ∧
            (((BASE_UUID_PREFIX ++ (seg ++ BASE_UUID_SUFFIX)).drop 4).take 4).all
              isHexLower = true
          then some (String.mk
            (((BASE_UUID_PREFIX ++ (seg ++ BASE_UUID_SUFFIX)).drop 4).take 4))
          else none) = some (String.mk seg)
      rw [if_pos ⟨h1, h2, h3, by rw [h4]; exact hhex⟩, h4]
    unfold initNormalizeUuid
    rw [hbm]
  · intro n
    refine ⟨rfl, ?_⟩
    show String.mk ((natToHexAux n []).map jsToLowerChar) = String.mk (natToHexAux n [])
    rw [natToHexAux_lower n [] (by intro c hc; simp at hc)]
  · intro s hs chars parse
    have hkey : jsToLower (jsToUpper s) = jsToLower s := by
      show String.mk ((s.data.map jsToUpperChar).map jsToLowerChar) =
        String.mk (s.data.map jsToLowerChar)
      rw [lower_upper_list s.data hs]
    show (match chars (jsToLower (jsToUpper s)) with
          | none => (Except.error "Unknown characteristic", 0)
          | some ch => readData ch.readScript (parse (jsToLower (jsToUpper s)))) =
        (match chars (jsToLower s) with
          | none => (Except.error "Unknown characteristic", 0)
          | some ch => readData ch.readScript (parse (jsToLower s)))
    rw [hkey]

/-- C8 witness: the long form of `301a` reduces to `301a`; the numeric ID
0x301a renders as lowercase hex already fixed by lowercasing; reading
`301A` and `301a` behave identically on a concrete table. -/
theorem id_normalization_witness :
    initNormalizeUuid
      (String.mk (BASE_UUID_PREFIX ++ (['3', '0', '1', 'a'] ++ BASE_UUID_SUFFIX))) =
      String.mk ['3', '0', '1', 'a'] ∧
    jsToLower (natToHex 12314) = natToHex 12314 ∧
    readChar (fun _ => none) (fun _ _ => none) (CharId.str (jsToUpper "301a")) =
      readChar (fun _ => none) (fun _ _ => none) (CharId.str "301a") :=
  ⟨id_normalization.1 ['3', '0', '1', 'a'] rfl rfl,
   (id_normalization.2.1 12314).2,
   id_normalization.2.2 "301a" rfl (fun _ => none) (fun _ _ => none)⟩
